import Mathlib

/-!
Shallow embedding of the product CRUD backend
(`src/handlers/product.ts`, `src/router.ts`, `src/server.ts`).

The persistence layer (Sequelize) is modelled as a list of product rows
plus the database's id sequence counter.  The entity declaration itself
(`src/models/Product.ts`) is not part of the sources, so its shape is
modelled from the spec (§3 DATA MODEL): `id` integer generated by the
database, `name` text, `price` numeric, `availability` boolean with
default `true`.
-/

set_option autoImplicit false

namespace ProductAPI

/-- Modelled from the spec: the Product entity (`src/models/Product.ts`
is absent from the sources).  `id` integer primary key, `name` text,
`price` numeric, `availability` boolean. -/
structure Product where
  id : Nat
  name : String
  price : Int
  availability : Bool
deriving DecidableEq, Repr

/-- A parsed JSON request body; each model field may be present or absent. -/
structure Body where
  name : Option String
  price : Option Int
  availability : Option Bool
deriving DecidableEq, Repr

/-- The persistence layer: the stored rows together with the database's
auto-increment sequence for the primary key. -/
structure Store where
  products : List Product
  nextId : Nat
deriving DecidableEq, Repr

/-- A write issued to the persistence layer (one SQL statement). -/
inductive WriteOp where
  | insert : Product → WriteOp
  | update : Product → WriteOp
  | delete : Nat → WriteOp
deriving DecidableEq, Repr

/-- A `{field, message}` entry produced by the validation layer. -/
structure FieldError where
  field : String
  message : String
deriving DecidableEq, Repr

/-- The JSON payload of a response, as the handlers build it. -/
inductive Payload where
  | data1 : Product → Payload
  | dataN : List Product → Payload
  | dataMsg : String → Payload
  | error : String → Payload
  | fieldErrors : List FieldError → Payload
deriving DecidableEq, Repr

/-- Result of running a handler: HTTP status, JSON payload, the store
after the request, and the writes the request issued. -/
structure HResult where
  status : Nat
  payload : Payload
  store : Store
  writes : List WriteOp
deriving DecidableEq, Repr

/-- Sequelize `Product.findByPk(id)`: look the row up by primary key. -/
def findByPk (s : Store) (id : Nat) : Option Product :=
  s.products.find? (fun p => p.id = id)

/-- Sequelize `instance.save()` on a changed instance: persist the row
`p` in place of the stored row with the same primary key. -/
def saveRecord (s : Store) (p : Product) : Store :=
  { s with products := s.products.map (fun q => if q.id = p.id then p else q) }

/-- Sequelize `instance.destroy()`: remove the row with this primary key. -/
def destroyRecord (s : Store) (id : Nat) : Store :=
  { s with products := s.products.filter (fun q => ¬ q.id = id) }

/-- Sequelize `Product.create(req.body)` builds the row from every model
field present in the body; the id comes from the database sequence and,
modelled from the spec, `availability` defaults to `true` when absent. -/
def buildRecord (s : Store) (b : Body) : Product :=
  { id := s.nextId
    name := b.name.getD ""
    price := b.price.getD 0
    availability := b.availability.getD true }

/-- The INSERT performed by `Product.create`: append the row and advance
the database id sequence. -/
def insertRecord (s : Store) (p : Product) : Store :=
  { products := s.products ++ [p], nextId := s.nextId + 1 }

/-- Sequelize `instance.update(req.body)` overwrites the mutable model
fields present in the body.  Modelled from the spec (§4.2): "overwrite
all mutable fields from body"; the generated primary key is not a
mutable field. -/
def applyBody (p : Product) (b : Body) : Product :=
  { p with
    name := b.name.getD p.name
    price := b.price.getD p.price
    availability := b.availability.getD p.availability }

/-- `getProductById` from `src/handlers/product.ts`. -/
def getProductById (s : Store) (id : Nat) : HResult :=
  match findByPk s id with
  | none => ⟨404, .error "Producto no encontrado", s, []⟩
  | some p => ⟨200, .data1 p, s, []⟩

/-- `createProduct` from `src/handlers/product.ts`:
`Product.create(req.body)` issues one INSERT and answers 201 with the
created row. -/
def createProduct (s : Store) (b : Body) : HResult :=
  let p := buildRecord s b
  ⟨201, .data1 p, insertRecord s p, [.insert p]⟩

/-- `updateProduct` from `src/handlers/product.ts`.
Sequelize change-tracking governs both calls on the instance:
`product.update(req.body)` issues one UPDATE for the changed attributes,
but issues no query at all when every body value equals the stored one
(nothing is marked changed); either way the instance is left
unchanged-since-sync, so the trailing `product.save()` finds no changed
attribute and issues nothing. -/
def updateProduct (s : Store) (id : Nat) (b : Body) : HResult :=
  match findByPk s id with
  | none => ⟨404, .error "Producto no encontrado", s, []⟩
  | some p =>
    let p1 := applyBody p b
    ⟨200, .data1 p1, saveRecord s p1, if p1 = p then [] else [.update p1]⟩

/-- `updateAvailability` from `src/handlers/product.ts`: the handler
reads only the path id, never `req.body`; it overwrites `availability`
with the negation of the stored value and `product.save()` issues one
UPDATE. -/
def updateAvailability (s : Store) (id : Nat) (b : Body) : HResult :=
  match findByPk s id with
  | none => ⟨404, .error "Producto no encontrado", s, []⟩
  | some p =>
    let p1 := { p with availability := !p.availability }
    ⟨200, .data1 p1, saveRecord s p1, [.update p1]⟩

/-- `deleteProduct` from `src/handlers/product.ts`. -/
def deleteProduct (s : Store) (id : Nat) : HResult :=
  match findByPk s id with
  | none => ⟨404, .error "Producto no encontrado", s, []⟩
  | some p => ⟨200, .dataMsg "Producto Eliminado", destroyRecord s p.id, [.delete p.id]⟩

/-- `body('name').notEmpty()` in `router.post` / `router.put`:
fails when the field is missing or the empty string. -/
def nameErrors (name : Option String) : List FieldError :=
  if (match name with | some s => !(s = "" : Bool) | none => false) then []
  else [⟨"name", "El campo nombre no puede estar vacio"⟩]

/-- The `body('price')` chain in `router.post` / `router.put`:
`isNumeric`, `notEmpty`, `custom(value => value > 0)`; all three
validators run and each failing one contributes its message. -/
def priceErrors (price : Option Int) : List FieldError :=
  (if price.isSome then [] else [⟨"price", "Valor no valido"⟩])
    ++ (if price.isSome then [] else [⟨"price", "El campo precio no puede estar vacio"⟩])
    ++ (if (match price with | some v => decide (0 < v) | none => false) then []
        else [⟨"price", "Precio no valido"⟩])

/-- The validation chain of `router.post('/')`. -/
def createValidationErrors (b : Body) : List FieldError :=
  nameErrors b.name ++ priceErrors b.price

/-- `router.post('/')`: validation chain, then `handleInputErrors`, then
`createProduct`.  Modelled from the spec (§4.1, `src/middleware.ts` is
absent from the sources): `handleInputErrors` terminates the request
with 400 and the itemized field errors when any rule failed, and
otherwise passes through to the handler. -/
def postProducts (s : Store) (b : Body) : HResult :=
  let errs := createValidationErrors b
  if errs.isEmpty then createProduct s b
  else ⟨400, .fieldErrors errs, s, []⟩

/-- JavaScript truthiness of an optional string (env value or header):
`undefined` and the empty string are falsy. -/
def jsTruthy : Option String → Bool
  | none => false
  | some s => !(s = "" : Bool)

/-- The allow-list in `corsOptions` (`src/server.ts`):
`[process.env.FRONTEND_URL, process.env.API_URL].filter(Boolean)`. -/
def allowedOrigins (frontendURL apiURL : Option String) : List String :=
  ([frontendURL, apiURL].filter jsTruthy).filterMap id

/-- The `origin` function of `corsOptions` (`src/server.ts`):
`if (!origin || allowedOrigins.includes(origin)) callback(null, true)
else callback(new Error("Error de CORS"))`. -/
def corsOriginCallback (frontendURL apiURL : Option String)
    (origin : Option String) : Except String Bool :=
  if !(jsTruthy origin) || (allowedOrigins frontendURL apiURL).contains (origin.getD "")
  then .ok true
  else .error "Error de CORS"

/-- `connectDB` (`src/server.ts`): `try { await db.authenticate(); ... }
catch { console.log('Hubo un error ...') }`.  The argument is the
outcome of `db.authenticate()`; the result is the lines logged and the
procedure's own outcome. -/
def connectDB (auth : Except String Unit) : List String × Except String Unit :=
  match auth with
  | .ok _ => ([], .ok ())
  | .error _ => (["Hubo un error al conectarse a la base de datos"], .ok ())

/-- One dispatched request, for reasoning about operation sequences. -/
inductive OpCmd where
  | create : Body → OpCmd
  | put : Nat → Body → OpCmd
  | patch : Nat → Body → OpCmd
  | del : Nat → OpCmd
  | get : Nat → OpCmd
deriving DecidableEq, Repr

/-- The store after one request. -/
def runOp (s : Store) : OpCmd → Store
  | .create b => (postProducts s b).store
  | .put id b => (updateProduct s id b).store
  | .patch id b => (updateAvailability s id b).store
  | .del id => (deleteProduct s id).store
  | .get id => (getProductById s id).store

/-- The store after a sequence of requests. -/
def runOps (s : Store) (ops : List OpCmd) : Store :=
  ops.foldl runOp s

/-- The database invariant tying rows to the id sequence: every stored
id was handed out by the sequence, i.e. is below its next value. -/
def goodStore (s : Store) : Bool :=
  s.products.all (fun p => p.id < s.nextId)

/-- Concrete one-row store used to instantiate the theorems. -/
def sEx : Store :=
  { products := [{ id := 1, name := "Monitor", price := 300, availability := true }]
    nextId := 2 }

/-- Concrete stored row of `sEx`. -/
def pEx : Product :=
  { id := 1, name := "Monitor", price := 300, availability := true }

/-- Concrete empty request body. -/
def bEx : Body := { name := none, price := none, availability := none }

/-- Concrete non-trivial request body. -/
def bEx2 : Body := { name := some "Tv", price := some 5, availability := some false }

/-- Concrete request sequence used to instantiate the theorems. -/
def opsEx : List OpCmd := [OpCmd.create bEx2, OpCmd.patch 1 bEx, OpCmd.del 1]

/-! ### Library lemmas about the persistence primitives -/

theorem findByPk_id {s : Store} {id : Nat} {p : Product}
    (h : findByPk s id = some p) : p.id = id := by
  rw [findByPk] at h
  have h' := List.find?_some h
  exact of_decide_eq_true h'

theorem findByPk_mem {s : Store} {id : Nat} {p : Product}
    (h : findByPk s id = some p) : p ∈ s.products := by
  rw [findByPk] at h
  exact List.mem_of_find?_eq_some h

theorem find?_map_replace (id : Nat) (p' : Product) (hid : p'.id = id)
    (l : List Product) (h : (l.find? (fun q => q.id = id)).isSome = true) :
    (l.map (fun q => if q.id = p'.id then p' else q)).find? (fun q => q.id = id)
      = some p' := by
  induction l with
  | nil => simp at h
  | cons a t ih =>
    by_cases ha : a.id = id
    · simp [List.find?, hid, ha]
    · have h' : (t.find? (fun q => q.id = id)).isSome = true := by
        simpa [List.find?, ha] using h
      simpa [List.find?, hid, ha] using ih h'

theorem findByPk_saveRecord {s : Store} {id : Nat} {p p' : Product}
    (hid : p'.id = id) (h : findByPk s id = some p) :
    findByPk (saveRecord s p') id = some p' := by
  have hs : (s.products.find? (fun q => q.id = id)).isSome = true := by
    have h' : s.products.find? (fun q => q.id = id) = some p := h
    rw [h']
    rfl
  exact find?_map_replace id p' hid s.products hs

theorem updateAvailability_store {s : Store} {id : Nat} {p : Product} (b : Body)
    (h : findByPk s id = some p) :
    (updateAvailability s id b).store
      = saveRecord s { p with availability := !p.availability } := by
  simp only [updateAvailability, h]

theorem findByPk_destroyRecord (s : Store) (id : Nat) :
    findByPk (destroyRecord s id) id = none := by
  apply List.find?_eq_none.mpr
  intro x hx
  have hmem := List.mem_filter.mp hx
  simp only [decide_not, Bool.not_eq_true', decide_eq_false_iff_not] at hmem
  simp only [decide_eq_true_eq]
  exact hmem.2

theorem updateAvailability_store_none {s : Store} {id : Nat} (b : Body)
    (h : findByPk s id = none) :
    (updateAvailability s id b).store = s := by
  simp [updateAvailability, h]

theorem updateProduct_store {s : Store} {id : Nat} {p : Product} (b : Body)
    (h : findByPk s id = some p) :
    (updateProduct s id b).store = saveRecord s (applyBody p b) := by
  simp only [updateProduct, h]

theorem updateProduct_store_none {s : Store} {id : Nat} (b : Body)
    (h : findByPk s id = none) :
    (updateProduct s id b).store = s := by
  simp [updateProduct, h]

theorem deleteProduct_store {s : Store} {id : Nat} {p : Product}
    (h : findByPk s id = some p) :
    (deleteProduct s id).store = destroyRecord s id := by
  simp only [deleteProduct, h]
  rw [findByPk_id h]

theorem deleteProduct_store_none {s : Store} {id : Nat}
    (h : findByPk s id = none) :
    (deleteProduct s id).store = s := by
  simp [deleteProduct, h]

theorem getProductById_store (s : Store) (id : Nat) :
    (getProductById s id).store = s := by
  cases h : findByPk s id <;> simp [getProductById, h]

theorem mem_saveRecord {s : Store} {p' q : Product}
    (hq : q ∈ (saveRecord s p').products) :
    q = p' ∨ q ∈ s.products := by
  obtain ⟨r, hr, hrq⟩ := List.mem_map.mp hq
  by_cases hc : r.id = p'.id
  · rw [if_pos hc] at hrq
    exact Or.inl hrq.symm
  · rw [if_neg hc] at hrq
    exact Or.inr (hrq ▸ hr)

theorem goodStore_iff {s : Store} :
    goodStore s = true ↔ ∀ p ∈ s.products, p.id < s.nextId := by
  simp [goodStore]

theorem goodStore_saveRecord {s : Store} {p p' : Product}
    (hg : goodStore s = true) (hmem : p ∈ s.products) (hid : p'.id = p.id) :
    goodStore (saveRecord s p') = true := by
  rw [goodStore_iff] at hg
  rw [goodStore_iff]
  intro q hq
  rcases mem_saveRecord hq with hq | hq
  · rw [hq, hid]
    exact hg p hmem
  · exact hg q hq

theorem goodStore_runOp {s : Store} (c : OpCmd) (hg : goodStore s = true) :
    goodStore (runOp s c) = true := by
  cases c with
  | create b =>
    simp only [runOp, postProducts]
    split
    · rw [goodStore_iff] at hg
      rw [goodStore_iff]
      simp only [createProduct, insertRecord]
      intro q hq
      rcases List.mem_append.mp hq with hq | hq
      · exact Nat.lt_succ_of_lt (hg q hq)
      · rw [List.mem_singleton.mp hq]
        exact Nat.lt_succ_self _
    · exact hg
  | put id b =>
    cases h : findByPk s id with
    | none =>
      rw [runOp, updateProduct_store_none b h]
      exact hg
    | some p =>
      rw [runOp, updateProduct_store b h]
      exact goodStore_saveRecord hg (findByPk_mem h) rfl
  | patch id b =>
    cases h : findByPk s id with
    | none =>
      rw [runOp, updateAvailability_store_none b h]
      exact hg
    | some p =>
      rw [runOp, updateAvailability_store b h]
      exact goodStore_saveRecord hg (findByPk_mem h) rfl
  | del id =>
    cases h : findByPk s id with
    | none =>
      rw [runOp, deleteProduct_store_none h]
      exact hg
    | some p =>
      rw [runOp, deleteProduct_store h]
      rw [goodStore_iff] at hg
      rw [goodStore_iff]
      intro q hq
      exact hg q (List.mem_of_mem_filter hq)
  | get id =>
    rw [runOp, getProductById_store]
    exact hg

theorem nextId_runOp {s : Store} (c : OpCmd) :
    s.nextId ≤ (runOp s c).nextId := by
  cases c with
  | create b =>
    simp only [runOp, postProducts]
    split
    · exact Nat.le_succ _
    · exact Nat.le_refl _
  | put id b =>
    cases h : findByPk s id
    · rw [runOp, updateProduct_store_none b h]
    · rw [runOp, updateProduct_store b h]
      exact Nat.le_refl _
  | patch id b =>
    cases h : findByPk s id
    · rw [runOp, updateAvailability_store_none b h]
    · rw [runOp, updateAvailability_store b h]
      exact Nat.le_refl _
  | del id =>
    cases h : findByPk s id
    · rw [runOp, deleteProduct_store_none h]
    · rw [runOp, deleteProduct_store h]
      exact Nat.le_refl _
  | get id =>
    rw [runOp, getProductById_store]

theorem goodStore_runOps {s : Store} (ops : List OpCmd) (hg : goodStore s = true) :
    goodStore (runOps s ops) = true := by
  induction ops generalizing s with
  | nil => exact hg
  | cons c t ih => exact ih (goodStore_runOp c hg)

theorem nextId_runOps {s : Store} (ops : List OpCmd) :
    s.nextId ≤ (runOps s ops).nextId := by
  induction ops generalizing s with
  | nil => exact Nat.le_refl _
  | cons c t ih => exact Nat.le_trans (nextId_runOp c) (ih (s := runOp s c))

theorem fresh_id_of_goodStore {s : Store} (b : Body) (hg : goodStore s = true) :
    (s.products.all (fun q => !(q.id = (buildRecord s b).id))) = true := by
  rw [goodStore_iff] at hg
  rw [List.all_eq_true]
  intro q hq
  have hlt := hg q hq
  simp only [buildRecord, Bool.not_eq_true', decide_eq_false_iff_not]
  omega

/-! ### Claim theorems -/

/-- C1: for every product id that resolves to a stored record, applying
the toggle-availability operation twice in succession returns the store
to a state where that record's availability equals its original value. -/
theorem toggle_twice_restores_availability
    (s : Store) (id : Nat) (b1 b2 : Body) (p : Product)
    (h : findByPk s id = some p) :
    (findByPk ((updateAvailability ((updateAvailability s id b1).store) id b2).store) id).map
        Product.availability = some p.availability := by
  have hid : p.id = id := findByPk_id h
  have h1 : findByPk (updateAvailability s id b1).store id
      = some { p with availability := !p.availability } := by
    rw [updateAvailability_store b1 h]
    exact findByPk_saveRecord hid h
  have h2 : findByPk (updateAvailability (updateAvailability s id b1).store id b2).store id
      = some { p with availability := !(!p.availability) } := by
    rw [updateAvailability_store b2 h1]
    exact findByPk_saveRecord hid h1
  rw [h2]
  simp

/-- C1 witness: instantiation at a concrete one-row store. -/
theorem toggle_twice_restores_availability_witness :
    findByPk sEx 1 = some pEx
    ∧ (findByPk ((updateAvailability ((updateAvailability sEx 1 bEx).store) 1 bEx2).store) 1).map
        Product.availability = some pEx.availability :=
  ⟨by decide, toggle_twice_restores_availability sEx 1 bEx bEx2 pEx (by decide)⟩

/-- C2: toggle-availability sets availability to the negation of the
stored value, leaves name, price and id unchanged, and the request body
has no effect on the result. -/
theorem toggle_negates_and_preserves_fields
    (s : Store) (id : Nat) (b b' : Body) (p : Product)
    (h : findByPk s id = some p) :
    (updateAvailability s id b).status = 200
    ∧ findByPk (updateAvailability s id b).store id
        = some { id := p.id, name := p.name, price := p.price,
                 availability := !p.availability }
    ∧ updateAvailability s id b' = updateAvailability s id b := by
  have hid : p.id = id := findByPk_id h
  refine ⟨?_, ?_, rfl⟩
  · simp [updateAvailability, h]
  · simp only [updateAvailability, h]
    exact findByPk_saveRecord hid h

/-- C2 witness: instantiation at a concrete one-row store. -/
theorem toggle_negates_and_preserves_fields_witness :
    findByPk sEx 1 = some pEx
    ∧ ((updateAvailability sEx 1 bEx).status = 200
        ∧ findByPk (updateAvailability sEx 1 bEx).store 1
            = some { id := pEx.id, name := pEx.name, price := pEx.price,
                     availability := !pEx.availability }
        ∧ updateAvailability sEx 1 bEx2 = updateAvailability sEx 1 bEx) :=
  ⟨by decide, toggle_negates_and_preserves_fields sEx 1 bEx bEx2 pEx (by decide)⟩

/-- C3: for every id that references no stored record, get-by-id,
toggle-availability and delete all answer 404 with an error payload and
leave the store unchanged (and issue no write). -/
theorem unknown_id_404
    (s : Store) (id : Nat) (b : Body)
    (h : findByPk s id = none) :
    getProductById s id = ⟨404, Payload.error "Producto no encontrado", s, []⟩
    ∧ updateAvailability s id b = ⟨404, Payload.error "Producto no encontrado", s, []⟩
    ∧ deleteProduct s id = ⟨404, Payload.error "Producto no encontrado", s, []⟩ := by
  refine ⟨?_, ?_, ?_⟩ <;> simp [getProductById, updateAvailability, deleteProduct, h]

/-- C3 witness: instantiation at a concrete store and an absent id. -/
theorem unknown_id_404_witness :
    findByPk sEx 99 = none
    ∧ (getProductById sEx 99 = ⟨404, Payload.error "Producto no encontrado", sEx, []⟩
        ∧ updateAvailability sEx 99 bEx2
            = ⟨404, Payload.error "Producto no encontrado", sEx, []⟩
        ∧ deleteProduct sEx 99 = ⟨404, Payload.error "Producto no encontrado", sEx, []⟩) :=
  ⟨by decide, unknown_id_404 sEx 99 bEx2 (by decide)⟩

/-- C5: deleting a stored id answers 200 with the confirmation message
string (not the deleted object), the record is gone, and a subsequent
get-by-id on the same id answers 404 with an error payload. -/
theorem delete_then_get_404
    (s : Store) (id : Nat) (p : Product)
    (h : findByPk s id = some p) :
    (deleteProduct s id).status = 200
    ∧ (deleteProduct s id).payload = Payload.dataMsg "Producto Eliminado"
    ∧ findByPk (deleteProduct s id).store id = none
    ∧ (getProductById (deleteProduct s id).store id).status = 404
    ∧ (getProductById (deleteProduct s id).store id).payload
        = Payload.error "Producto no encontrado" := by
  have hid : p.id = id := findByPk_id h
  have hstore : (deleteProduct s id).store = destroyRecord s id := by
    simp only [deleteProduct, h]
    rw [hid]
  have hnone : findByPk (deleteProduct s id).store id = none := by
    rw [hstore]
    exact findByPk_destroyRecord s id
  refine ⟨?_, ?_, hnone, ?_, ?_⟩
  · simp [deleteProduct, h]
  · simp [deleteProduct, h]
  · simp [getProductById, hnone]
  · simp [getProductById, hnone]

/-- C5 witness: instantiation at a concrete one-row store. -/
theorem delete_then_get_404_witness :
    findByPk sEx 1 = some pEx
    ∧ ((deleteProduct sEx 1).status = 200
        ∧ (deleteProduct sEx 1).payload = Payload.dataMsg "Producto Eliminado"
        ∧ findByPk (deleteProduct sEx 1).store 1 = none
        ∧ (getProductById (deleteProduct sEx 1).store 1).status = 404
        ∧ (getProductById (deleteProduct sEx 1).store 1).payload
            = Payload.error "Producto no encontrado") :=
  ⟨by decide, delete_then_get_404 sEx 1 pEx (by decide)⟩

/-- C4: a create request whose body has a non-positive price or an empty
(or missing) name is answered 400 with the itemized field errors, and
the store is unchanged — the handler never runs, so nothing is written. -/
theorem invalid_create_400
    (s : Store) (b : Body)
    (h : b.name = some "" ∨ b.name = none ∨ ∃ v, b.price = some v ∧ v ≤ 0) :
    (postProducts s b).status = 400
    ∧ (postProducts s b).payload = Payload.fieldErrors (createValidationErrors b)
    ∧ createValidationErrors b ≠ []
    ∧ (postProducts s b).store = s
    ∧ (postProducts s b).writes = [] := by
  have hne : createValidationErrors b ≠ [] := by
    rcases h with h | h | ⟨v, hv, hvle⟩
    · apply List.ne_nil_of_mem (a := FieldError.mk "name" "El campo nombre no puede estar vacio")
      simp [createValidationErrors, nameErrors, h]
    · apply List.ne_nil_of_mem (a := FieldError.mk "name" "El campo nombre no puede estar vacio")
      simp [createValidationErrors, nameErrors, h]
    · apply List.ne_nil_of_mem (a := FieldError.mk "price" "Precio no valido")
      have : ¬ (0 < v) := not_lt.mpr hvle
      simp [createValidationErrors, priceErrors, hv, this]
  have hE : (createValidationErrors b).isEmpty = false := by
    cases hcve : createValidationErrors b with
    | nil => exact absurd hcve hne
    | cons a t => rfl
  refine ⟨?_, ?_, hne, ?_, ?_⟩ <;> simp [postProducts, hE]

/-- C4 witness: instantiation at a body with empty name and negative
price. -/
theorem invalid_create_400_witness :
    ((Body.mk (some "") (some (-2)) none).name = some ""
      ∨ (Body.mk (some "") (some (-2)) none).name = none
      ∨ ∃ v, (Body.mk (some "") (some (-2)) none).price = some v ∧ v ≤ 0)
    ∧ ((postProducts sEx (Body.mk (some "") (some (-2)) none)).status = 400
        ∧ (postProducts sEx (Body.mk (some "") (some (-2)) none)).payload
            = Payload.fieldErrors (createValidationErrors (Body.mk (some "") (some (-2)) none))
        ∧ createValidationErrors (Body.mk (some "") (some (-2)) none) ≠ []
        ∧ (postProducts sEx (Body.mk (some "") (some (-2)) none)).store = sEx
        ∧ (postProducts sEx (Body.mk (some "") (some (-2)) none)).writes = []) :=
  ⟨Or.inl rfl, invalid_create_400 sEx (Body.mk (some "") (some (-2)) none) (Or.inl rfl)⟩

/-- C6 counterexample: a successful full update (status 200) whose body
carries exactly the stored values issues zero writes — Sequelize marks
no attribute changed, so neither `product.update(req.body)` nor the
trailing `product.save()` issues a query, refuting "exactly one write
per successful request, never zero". -/
theorem full_update_can_issue_zero_writes :
    (updateProduct sEx 1 (Body.mk (some "Monitor") (some 300) (some true))).status = 200
    ∧ (updateProduct sEx 1 (Body.mk (some "Monitor") (some 300) (some true))).writes.length
        = 0 := by
  constructor
  · rfl
  · decide

/-- C6 (amended): on a successful request, `createProduct`,
`updateAvailability` and `deleteProduct` each issue exactly one write;
`updateProduct` issues exactly one write when the body changes some
field value and zero writes when the body leaves the record unchanged. -/
theorem one_write_per_mutation
    (s : Store) (id : Nat) (b : Body) (p : Product)
    (h : findByPk s id = some p) :
    (createProduct s b).writes.length = 1
    ∧ (updateProduct s id b).writes.length = (if applyBody p b = p then 0 else 1)
    ∧ (updateAvailability s id b).writes.length = 1
    ∧ (deleteProduct s id).writes.length = 1 := by
  refine ⟨rfl, ?_, ?_, ?_⟩ <;>
    simp only [updateProduct, updateAvailability, deleteProduct, h]
  · split <;> rfl
  · rfl
  · rfl

/-- C6 witness: instantiation at a concrete one-row store and a body
that changes the record. -/
theorem one_write_per_mutation_witness :
    findByPk sEx 1 = some pEx
    ∧ ((createProduct sEx bEx2).writes.length = 1
        ∧ (updateProduct sEx 1 bEx2).writes.length
            = (if applyBody pEx bEx2 = pEx then 0 else 1)
        ∧ (updateAvailability sEx 1 bEx2).writes.length = 1
        ∧ (deleteProduct sEx 1).writes.length = 1) :=
  ⟨by decide, one_write_per_mutation sEx 1 bEx2 pEx (by decide)⟩

/-- C7: over any operation sequence from a store satisfying the id
invariant, the invariant is preserved, the id sequence never moves
backwards, a freshly created record's id collides with no stored id,
and a full update leaves the record's id unchanged. -/
theorem ids_never_mutated_or_reused
    (s : Store) (ops : List OpCmd) (b : Body) (id : Nat) (p : Product)
    (hg : goodStore s = true) (h : findByPk s id = some p) :
    goodStore (runOps s ops) = true
    ∧ s.nextId ≤ (runOps s ops).nextId
    ∧ ((runOps s ops).products.all
         (fun q => !(q.id = (buildRecord (runOps s ops) b).id))) = true
    ∧ findByPk (updateProduct s id b).store id = some (applyBody p b)
    ∧ (applyBody p b).id = p.id := by
  have hg' := goodStore_runOps ops hg
  refine ⟨hg', nextId_runOps ops, fresh_id_of_goodStore b hg', ?_, rfl⟩
  rw [updateProduct_store b h]
  have hid0 : p.id = id := findByPk_id h
  have hid2 : (applyBody p b).id = id := hid0
  exact findByPk_saveRecord hid2 h

/-- C7 witness: instantiation at a concrete store and request sequence. -/
theorem ids_never_mutated_or_reused_witness :
    goodStore sEx = true
    ∧ findByPk sEx 1 = some pEx
    ∧ (goodStore (runOps sEx opsEx) = true
        ∧ sEx.nextId ≤ (runOps sEx opsEx).nextId
        ∧ ((runOps sEx opsEx).products.all
             (fun q => !(q.id = (buildRecord (runOps sEx opsEx) bEx2).id))) = true
        ∧ findByPk (updateProduct sEx 1 bEx2).store 1 = some (applyBody pEx bEx2)
        ∧ (applyBody pEx bEx2).id = pEx.id) :=
  ⟨by decide, by decide,
    ids_never_mutated_or_reused sEx opsEx bEx2 1 pEx (by decide) (by decide)⟩

/-- C8: the create handler forwards the whole body to the persistence
layer, so an `availability` value in the create body is persisted in the
created record. -/
theorem create_forwards_availability
    (s : Store) (b : Body) (v : Bool)
    (hav : b.availability = some v) :
    (createProduct s b).status = 201
    ∧ (createProduct s b).payload = Payload.data1 (buildRecord s b)
    ∧ (buildRecord s b).availability = v
    ∧ buildRecord s b ∈ (createProduct s b).store.products := by
  refine ⟨rfl, rfl, ?_, ?_⟩
  · simp [buildRecord, hav]
  · simp [createProduct, insertRecord]

/-- C8 witness: a create body carrying `availability := false`. -/
theorem create_forwards_availability_witness :
    bEx2.availability = some false
    ∧ ((createProduct sEx bEx2).status = 201
        ∧ (createProduct sEx bEx2).payload = Payload.data1 (buildRecord sEx bEx2)
        ∧ (buildRecord sEx bEx2).availability = false
        ∧ buildRecord sEx bEx2 ∈ (createProduct sEx bEx2).store.products) :=
  ⟨by decide, create_forwards_availability sEx bEx2 false (by decide)⟩

/-- C9 counterexample: a request without an Origin header is accepted by
the CORS check although its origin is not a member of the allow-list,
refuting "accept if and only if the origin is a member of the
allow-list". -/
theorem cors_accepts_missing_origin :
    corsOriginCallback (some "http://localhost:5173") (some "http://localhost:4000") none
      = Except.ok true
    ∧ ((allowedOrigins (some "http://localhost:5173") (some "http://localhost:4000")).contains
        ((none : Option String).getD "")) = false := by
  constructor
  · rfl
  · decide

/-- C9 (amended): the CORS check accepts a request iff its origin is
absent (or empty, i.e. falsy) or is a member of the allow-list derived
from the two environment values; otherwise it rejects with the CORS
error. -/
theorem cors_accepts_iff (fe api origin : Option String) :
    (corsOriginCallback fe api origin = Except.ok true
      ↔ (jsTruthy origin = false
          ∨ (allowedOrigins fe api).contains (origin.getD "") = true))
    ∧ (corsOriginCallback fe api origin = Except.error "Error de CORS"
      ↔ ¬(jsTruthy origin = false
          ∨ (allowedOrigins fe api).contains (origin.getD "") = true)) := by
  by_cases hc : (!(jsTruthy origin)
      || (allowedOrigins fe api).contains (origin.getD "")) = true
  · have he : corsOriginCallback fe api origin = Except.ok true := by
      unfold corsOriginCallback
      rw [if_pos hc]
    have hd : jsTruthy origin = false
        ∨ (allowedOrigins fe api).contains (origin.getD "") = true := by
      simp only [Bool.or_eq_true, Bool.not_eq_true'] at hc
      exact hc
    refine ⟨⟨fun _ => hd, fun _ => he⟩, ⟨fun hbad => ?_, fun hnd => absurd hd hnd⟩⟩
    exact Except.noConfusion (he.symm.trans hbad)
  · have hcf : (!(jsTruthy origin)
        || (allowedOrigins fe api).contains (origin.getD "")) = false :=
      Bool.eq_false_iff.mpr hc
    have he : corsOriginCallback fe api origin = Except.error "Error de CORS" := by
      unfold corsOriginCallback
      rw [if_neg hc]
    simp only [Bool.or_eq_false_iff, Bool.not_eq_false'] at hcf
    have hnd : ¬(jsTruthy origin = false
        ∨ (allowedOrigins fe api).contains (origin.getD "") = true) := by
      intro hdisj
      rcases hdisj with hdisj | hdisj
      · rw [hcf.1] at hdisj
        exact Bool.noConfusion hdisj
      · rw [hcf.2] at hdisj
        exact Bool.noConfusion hdisj
    refine ⟨⟨fun hok => ?_, fun hdisj => absurd hdisj hnd⟩, ⟨fun _ => hnd, fun _ => he⟩⟩
    exact Except.noConfusion (he.symm.trans hok)

/-- C9 witness: instantiation of the amended statement at a concrete
configuration, an allowed origin. -/
theorem cors_accepts_iff_witness :
    (corsOriginCallback (some "http://localhost:5173") none (some "http://localhost:5173")
        = Except.ok true
      ↔ (jsTruthy (some "http://localhost:5173") = false
          ∨ (allowedOrigins (some "http://localhost:5173") none).contains
              ((some "http://localhost:5173").getD "") = true))
    ∧ (corsOriginCallback (some "http://localhost:5173") none (some "http://localhost:5173")
        = Except.error "Error de CORS"
      ↔ ¬(jsTruthy (some "http://localhost:5173") = false
          ∨ (allowedOrigins (some "http://localhost:5173") none).contains
              ((some "http://localhost:5173").getD "") = true)) :=
  cors_accepts_iff (some "http://localhost:5173") none (some "http://localhost:5173")

/-- C10: when `db.authenticate()` rejects, `connectDB` catches the
failure, logs the human-readable message, and returns normally. -/
theorem connectDB_swallows_auth_failure
    (auth : Except String Unit) (e : String) (h : auth = Except.error e) :
    (connectDB auth).2 = Except.ok ()
    ∧ (connectDB auth).1 = ["Hubo un error al conectarse a la base de datos"] := by
  subst h
  exact ⟨rfl, rfl⟩

/-- C10 witness: instantiation at a concrete authentication failure. -/
theorem connectDB_swallows_auth_failure_witness :
    (Except.error "boom" : Except String Unit) = Except.error "boom"
    ∧ ((connectDB (Except.error "boom")).2 = Except.ok ()
        ∧ (connectDB (Except.error "boom")).1
            = ["Hubo un error al conectarse a la base de datos"]) :=
  ⟨rfl, connectDB_swallows_auth_failure (Except.error "boom") "boom" rfl⟩

end ProductAPI
